import Mathlib

/-!
Verification of the PySysdDeploy CLI (`main.py`): a shallow embedding of its
configuration record, template renderer, env-var tokenizer, validators,
config store and flag/interactive construction modes, with theorems settling
the specified properties.

Conventions of the embedding:
* Python strings are `String`; `str.strip()` is `pyStrip`,
  `str.lower()` is `pyLower`.
* The filesystem is an association list from path to node; writing prepends,
  and lookup takes the most recent entry (last write wins).
* `os.path.expanduser` replaces a leading `~` with the home directory;
  `os.path.abspath` resolves a relative path against the current working
  directory and is the identity on absolute paths (dot-segment normalisation
  is not modelled; no claim exercises it).
* Interactive `input()` consumes the next string from an explicit list of
  operator inputs (an exhausted list yields `""`).
* `subprocess` interactions are modelled by an environment record giving each
  external command's outcome.
-/

namespace PySysdDeploy

/-- Python process environment: current working directory, `getpass.getuser()`
result, and the home directory used by `os.path.expanduser`. -/
structure PyEnv where
  cwd : String
  currentUser : String
  home : String
deriving DecidableEq, Repr

/-- String prefix test over the underlying characters. -/
def pyStartsWith (s pre : String) : Bool :=
  pre.data.isPrefixOf s.data

/-- `os.path.expanduser`: a leading `~` is replaced by the home directory. -/
def pyExpanduser (env : PyEnv) (p : String) : String :=
  if p = "~" then env.home
  else if pyStartsWith p "~/" then env.home ++ ⟨p.data.drop 1⟩
  else p

/-- `os.path.abspath`: identity on absolute paths, otherwise resolved against
the current working directory (dot-segment normalisation not modelled). -/
def pyAbspath (env : PyEnv) (p : String) : String :=
  if pyStartsWith p "/" then p else env.cwd ++ "/" ++ p

/-- Python truthiness of an optional string (`None` and `""` are falsy). -/
def truthyOpt : Option String → Bool
  | none => false
  | some s => s != ""

/-- Python `a or b` for an optional/possibly-empty string `a` with default `b`. -/
def pyOrStr (o : Option String) (d : String) : String :=
  match o with
  | some s => if s = "" then d else s
  | none => d

/-- Python `s.strip()`: drop leading and trailing whitespace. -/
def pyStrip (s : String) : String :=
  ⟨(((s.data.dropWhile Char.isWhitespace).reverse).dropWhile
      Char.isWhitespace).reverse⟩

/-- Python `s.lower()` (over the characters the tool handles). -/
def pyLower (s : String) : String := ⟨s.data.map Char.toLower⟩

/-- Python `s.isdigit()`: non-empty and all characters are decimal digits. -/
def pyIsDigit (s : String) : Bool :=
  s != "" && s.data.all Char.isDigit

/-- Python `int(s)` on a digit string. -/
def pyStrToNat (s : String) : Nat :=
  s.data.foldl (fun a c => 10 * a + (c.toNat - 48)) 0

/-- The single step of `parse_env_vars`'s character loop: state is
(parts so far, current token, inside-quotes flag). -/
def parseEnvStep (st : List String × String × Bool) (c : Char) : List String × String × Bool :=
  let (parts, current, in_quotes) := st
  if c = '"' then (parts, current.push c, !in_quotes)
  else if c = ' ' ∧ in_quotes = false then
    (if current = "" then (parts, current, in_quotes) else (parts ++ [current], "", in_quotes))
  else (parts, current.push c, in_quotes)

/-- `parse_env_vars` (main.py:164-187): split on spaces outside double quotes;
quote characters themselves are appended to the current token (so they are
preserved verbatim in the output tokens). -/
def parse_env_vars (env_string : String) : List String :=
  if env_string = "" then []
  else
    let (parts, current, _) := env_string.data.foldl parseEnvStep ([], "", false)
    if current = "" then parts else parts ++ [current]

/-- C3: parsing `KEY1=VALUE1 "KEY2=VALUE WITH SPACES"` yields exactly two
tokens; the second retains its internal spaces, and the surrounding double
quotes are preserved verbatim in the token (they are not stripped) — this
pins the original tokenizer's quoting behaviour exactly. -/
theorem pysysd_C3 :
    parse_env_vars "KEY1=VALUE1 \"KEY2=VALUE WITH SPACES\"" =
      ["KEY1=VALUE1", "\"KEY2=VALUE WITH SPACES\""] ∧
    (parse_env_vars "KEY1=VALUE1 \"KEY2=VALUE WITH SPACES\"").length = 2 := by
  constructor <;> rfl

/-- The service configuration record (the `service_info` dict): the fields the
tool constructs in flag or interactive mode.  Template-specific fields are
optional, present only for the template that uses them. -/
structure Config where
  name : String
  description : String
  template : String
  working_directory : String
  venv_path : String
  user : String
  group : String
  restart_policy : String
  restart_sec : String
  additional_env_vars : List String
  script_path : Option String := none
  script_args : Option String := none
  bind_address : Option String := none
  app_module : Option String := none
deriving DecidableEq, Repr

/-- A JSON document as written by `json.dump` on a `service_info` dict:
only strings, arrays and objects occur. -/
inductive Jsonv where
  | str : String → Jsonv
  | arr : List Jsonv → Jsonv
  | obj : List (String × Jsonv) → Jsonv

/-- A filesystem node: a directory, a plain-text file, or a JSON document. -/
inductive FSNode where
  | dir : FSNode
  | text : String → FSNode
  | json : Jsonv → FSNode

/-- The filesystem: an association list from path to node; the head is the
most recent write. -/
def FS := List (String × FSNode)

/-- Writing a file: prepend (last write wins on lookup). -/
def fsWrite (p : String) (n : FSNode) (fs : FS) : FS := (p, n) :: fs

/-- Path lookup: the most recently written node at a path, if any. -/
def fsGet (fs : FS) (p : String) : Option FSNode :=
  match fs with
  | [] => none
  | (q, n) :: rest => if q = p then some n else fsGet rest p

/-- `os.path.exists` over the modelled filesystem. -/
def pathExists (fs : FS) (p : String) : Bool :=
  (fsGet fs p).isSome

/-- `Path.is_file` over the modelled filesystem: a regular file (text or
JSON), not a directory. -/
def isFile (fs : FS) (p : String) : Bool :=
  match fsGet fs p with
  | some (.text _) => true
  | some (.json _) => true
  | _ => false

/-- `validate_python_script` (main.py:82-89): the script path must exist and
be a regular file; always returns (ok, message). -/
def validate_python_script (fs : FS) (script_path : String) : Bool × String :=
  if !pathExists fs script_path then
    (false, "Script " ++ script_path ++ " does not exist")
  else if !isFile fs script_path then
    (false, script_path ++ " is not a file")
  else
    (true, "Script is valid")

/-- `validate_venv` (main.py:91-97): `<venv>/bin/activate` must exist;
always returns (ok, message). -/
def validate_venv (fs : FS) (venv_path : String) : Bool × String :=
  if !pathExists fs (venv_path ++ "/bin/activate") then
    (false, "Virtual environment not found at " ++ venv_path)
  else
    (true, "Virtual environment is valid")

/-- C5: the two validators are total (never raise) and return a boolean plus
a human-readable message: a non-existent script path fails with a message
naming that path, an existing regular file succeeds, a venv root whose
`bin/activate` is missing fails, and an existing activation script
succeeds. -/
theorem pysysd_C5 (fs : FS) (sp vp : String) :
    (pathExists fs sp = false →
      validate_python_script fs sp = (false, "Script " ++ sp ++ " does not exist")) ∧
    (pathExists fs sp = true → isFile fs sp = true →
      validate_python_script fs sp = (true, "Script is valid")) ∧
    (pathExists fs (vp ++ "/bin/activate") = false →
      validate_venv fs vp = (false, "Virtual environment not found at " ++ vp)) ∧
    (pathExists fs (vp ++ "/bin/activate") = true →
      validate_venv fs vp = (true, "Virtual environment is valid")) := by
  refine ⟨fun h => ?_, fun h1 h2 => ?_, fun h => ?_, fun h => ?_⟩ <;>
    simp [validate_python_script, validate_venv, *]

/-- A concrete filesystem exercising every branch of `pysysd_C5`. -/
def fs5 : FS :=
  [("/srv/app/run.py", .text ""), ("/srv/venv/bin/activate", .text "")]

/-- C5 witness: evaluating both validators on `fs5` at concrete paths
discharges every hypothesis of `pysysd_C5`. -/
theorem pysysd_C5_witness :
    validate_python_script fs5 "/gone.py" = (false, "Script /gone.py does not exist") ∧
    validate_python_script fs5 "/srv/app/run.py" = (true, "Script is valid") ∧
    validate_venv fs5 "/srv/venv" = (true, "Virtual environment is valid") ∧
    validate_venv fs5 "/tmp/novenv" = (false, "Virtual environment not found at /tmp/novenv") :=
  ⟨(pysysd_C5 fs5 "/gone.py" "/x").1 (by decide),
   (pysysd_C5 fs5 "/srv/app/run.py" "/x").2.1 (by decide) (by decide),
   (pysysd_C5 fs5 "/x" "/srv/venv").2.2.2 (by decide),
   (pysysd_C5 fs5 "/x" "/tmp/novenv").2.2.1 (by decide)⟩

/-- Outcomes of the external `systemctl` commands issued by
`enable_service`: whether `enable` and `start` exit successfully, and the
stdout of `systemctl is-active`. -/
structure SystemdEnv where
  enableOk : Bool
  startOk : Bool
  isActiveOut : String
deriving DecidableEq, Repr

/-- `enable_service` (main.py:134-152): enable the unit, start it, then query
`systemctl is-active`; success exactly when the stripped stdout is
`"active"`, otherwise a failure message pointing at `journalctl`.  A failing
`enable`/`start` raises `CalledProcessError`, caught and converted to a
failure message. -/
def enable_service (env : SystemdEnv) (service_name : String) : Bool × String :=
  if !env.enableOk then
    (false, "Failed to enable/start service: enable exited non-zero")
  else if !env.startOk then
    (false, "Failed to enable/start service: start exited non-zero")
  else if pyStrip env.isActiveOut = "active" then
    (true, "Service " ++ service_name ++ " is now active and enabled at boot")
  else
    (false, "Service " ++ service_name ++
      " is not active, check logs with: sudo journalctl -u " ++ service_name)

/-- `(s ++ t).data = s.data ++ t.data` for the modelled strings. -/
theorem strDataAppend (s t : String) : (s ++ t).data = s.data ++ t.data := rfl

/-- C7: once `enable` and `start` succeed, `enable_service` reports success
if and only if the queried (stripped) `is-active` state is exactly
`"active"`; otherwise it reports the failure message, which points at the
system log facility (`journalctl` occurs in it). -/
theorem pysysd_C7 (env : SystemdEnv) (nm : String)
    (he : env.enableOk = true) (hs : env.startOk = true) :
    ((enable_service env nm).1 = true ↔ pyStrip env.isActiveOut = "active") ∧
    (pyStrip env.isActiveOut ≠ "active" →
      enable_service env nm = (false, "Service " ++ nm ++
        " is not active, check logs with: sudo journalctl -u " ++ nm) ∧
      "journalctl".data <:+: (enable_service env nm).2.data) := by
  constructor
  · by_cases h : pyStrip env.isActiveOut = "active" <;>
      simp [enable_service, he, hs, h]
  · intro h
    have hres : enable_service env nm = (false, "Service " ++ nm ++
        " is not active, check logs with: sudo journalctl -u " ++ nm) := by
      simp [enable_service, he, hs, h]
    refine ⟨hres, ?_⟩
    rw [hres]
    have h1 : "journalctl".data <:+:
        (" is not active, check logs with: sudo journalctl -u " : String).data := by
      decide
    have h2 : (" is not active, check logs with: sudo journalctl -u " : String).data <:+:
        ("Service " ++ nm ++ " is not active, check logs with: sudo journalctl -u " ++ nm).data :=
      ⟨"Service ".data ++ nm.data, nm.data, by
        simp [strDataAppend, List.append_assoc]⟩
    exact h1.trans h2

/-- A concrete systemd environment where `enable`/`start` succeed but the
unit does not come up. -/
def sysEnvInactive : SystemdEnv := ⟨true, true, "inactive\n"⟩

/-- C7 witness: applying `pysysd_C7` to `sysEnvInactive` and the unit name
`web` with all hypotheses discharged. -/
theorem pysysd_C7_witness :
    sysEnvInactive.enableOk = true ∧ sysEnvInactive.startOk = true ∧
    (((enable_service sysEnvInactive "web").1 = true ↔
        pyStrip sysEnvInactive.isActiveOut = "active") ∧
      (pyStrip sysEnvInactive.isActiveOut ≠ "active" →
        enable_service sysEnvInactive "web" = (false, "Service " ++ "web" ++
          " is not active, check logs with: sudo journalctl -u " ++ "web") ∧
        "journalctl".data <:+: (enable_service sysEnvInactive "web").2.data)) :=
  ⟨rfl, rfl, pysysd_C7 sysEnvInactive "web" rfl rfl⟩

/-- The fixed config directory `~/.config/pysysddeploy`. -/
def configDir (home : String) : String := home ++ "/.config/pysysddeploy"

/-- The JSON object `json.dump` writes for a `service_info` dict: every
always-present field in construction order, then the template-specific
fields that are present. -/
def encodeConfig (c : Config) : Jsonv :=
  .obj
    ([("name", .str c.name), ("description", .str c.description),
      ("template", .str c.template),
      ("working_directory", .str c.working_directory),
      ("venv_path", .str c.venv_path), ("user", .str c.user),
      ("group", .str c.group), ("restart_policy", .str c.restart_policy),
      ("restart_sec", .str c.restart_sec),
      ("additional_env_vars", .arr (c.additional_env_vars.map .str))]
    ++ (match c.script_path with | some s => [("script_path", .str s)] | none => [])
    ++ (match c.script_args with | some s => [("script_args", .str s)] | none => [])
    ++ (match c.bind_address with | some s => [("bind_address", .str s)] | none => [])
    ++ (match c.app_module with | some s => [("app_module", .str s)] | none => []))

/-- Key lookup in a JSON object's field list. -/
def jGet (fields : List (String × Jsonv)) (key : String) : Option Jsonv :=
  match fields with
  | [] => none
  | (k, v) :: rest => if k = key then some v else jGet rest key

/-- A string-valued field of a JSON object. -/
def jGetStr (j : Jsonv) (key : String) : Option String :=
  match j with
  | .obj fields =>
    match jGet fields key with
    | some (.str s) => some s
    | _ => none
  | _ => none

/-- A JSON array of strings, as a string list. -/
def strsOf : List Jsonv → Option (List String)
  | [] => some []
  | .str s :: rest => (strsOf rest).map (s :: ·)
  | _ => none

/-- A string-list-valued field of a JSON object. -/
def jGetStrList (j : Jsonv) (key : String) : Option (List String) :=
  match j with
  | .obj fields =>
    match jGet fields key with
    | some (.arr xs) => strsOf xs
    | _ => none
  | _ => none

/-- Reading a `service_info` dict back into a configuration record:
every always-present field must be a string (a string list for
`additional_env_vars`); template-specific fields are taken when present. -/
def decodeConfig (j : Jsonv) : Option Config := do
  let name ← jGetStr j "name"
  let description ← jGetStr j "description"
  let template ← jGetStr j "template"
  let working_directory ← jGetStr j "working_directory"
  let venv_path ← jGetStr j "venv_path"
  let user ← jGetStr j "user"
  let group ← jGetStr j "group"
  let restart_policy ← jGetStr j "restart_policy"
  let restart_sec ← jGetStr j "restart_sec"
  let additional_env_vars ← jGetStrList j "additional_env_vars"
  pure
    { name, description, template, working_directory, venv_path, user, group,
      restart_policy, restart_sec, additional_env_vars,
      script_path := jGetStr j "script_path",
      script_args := jGetStr j "script_args",
      bind_address := jGetStr j "bind_address",
      app_module := jGetStr j "app_module" }

/-- `save_service_config` (main.py:280-290): with no explicit path, write the
JSON document at `<config-dir>/<name>.json`; returns the new filesystem and
the path written. -/
def save_service_config (c : Config) (home : String) (fs : FS)
    (pathArg : Option String) : FS × String :=
  let path := pathArg.getD (configDir home ++ "/" ++ c.name ++ ".json")
  (fsWrite path (.json (encodeConfig c)) fs, path)

/-- `load_service_config` (main.py:292-301): by name the path is
`<config-dir>/<name>.json`; `None` if the file is absent (or, in this model,
not a JSON document).  Calling it with neither name nor path passes `None`
to `os.path.exists`, which raises; that branch is not modelled beyond
returning `none`. -/
def load_service_config (home : String) (name : Option String)
    (pathArg : Option String) (fs : FS) : Option Jsonv :=
  match pathArg, name with
  | none, some n =>
    match fsGet fs (configDir home ++ "/" ++ n ++ ".json") with
    | some (.json j) => some j
    | _ => none
  | some p, _ =>
    match fsGet fs p with
    | some (.json j) => some j
    | _ => none
  | none, none => none

/-- Decoding inverts encoding: the JSON document written for a config reads
back field-for-field equal. -/
theorem decode_encode (c : Config) : decodeConfig (encodeConfig c) = some c := by
  obtain ⟨name, description, template, wd, venv, user, group, rp, rs, env,
    sp, sa, ba, am⟩ := c
  have henv : strsOf (env.map .str) = some env := by
    induction env with
    | nil => rfl
    | cons v rest ih => simp [strsOf, ih]
  cases sp <;> cases sa <;> cases ba <;> cases am <;>
    simp [decodeConfig, encodeConfig, jGetStr, jGetStrList, jGet, henv]

/-- C2: persisting a config with `save_service_config` (which writes
`<config-dir>/<name>.json`) and loading it back by name yields the very JSON
record that was written, and that record decodes field-for-field equal to
the original config. -/
theorem pysysd_C2 (c : Config) (fs : FS) (home : String) :
    load_service_config home (some c.name) none
        (save_service_config c home fs none).1 = some (encodeConfig c) ∧
    decodeConfig (encodeConfig c) = some c := by
  refine ⟨?_, decode_encode c⟩
  simp [load_service_config, save_service_config, fsWrite, fsGet]

/-- The registry's template identifiers, in insertion order
(`list(TEMPLATES.keys())`). -/
def templateKeys : List String := ["standard_python", "gunicorn"]

/-- Display name and description of a registry entry. -/
structure TemplateInfo where
  displayName : String
  summary : String
deriving DecidableEq, Repr

/-- The `TEMPLATES` registry (main.py:68-79): two fixed entries. -/
def TEMPLATES : List (String × TemplateInfo) :=
  [("standard_python",
    ⟨"Standard Python Script", "Run a Python script in a virtual environment"⟩),
   ("gunicorn",
    ⟨"Gunicorn Web Application", "Run a Flask/Django app with Gunicorn"⟩)]

/-- The `additional_env_vars` block of both jinja templates: for each entry a
newline then `Environment="<entry>"`; nothing for the empty list (the
surrounding `{% if %}` is redundant with an empty `{% for %}`). -/
def envBlock : List String → String
  | [] => ""
  | v :: vs => "\nEnvironment=\"" ++ v ++ "\"" ++ envBlock vs

/-- Jinja rendering of `STANDARD_PYTHON_TEMPLATE` (main.py:25-44) with a
config as context: literal template text with each `{{ placeholder }}`
replaced by the config field (a missing optional field renders as the empty
string, jinja's default for undefined); jinja strips the template's single
trailing newline. -/
def renderStandardPython (c : Config) : String :=
  "\n[Unit]\nDescription=" ++ c.description ++
  "\nAfter=network.target\n\n[Service]\nExecStart=/bin/bash -c \"source " ++
  c.venv_path ++ "/bin/activate && python3 " ++ c.script_path.getD "" ++
  " " ++ c.script_args.getD "" ++
  "\"\nWorkingDirectory=" ++ c.working_directory ++
  "\nUser=" ++ c.user ++
  "\nGroup=" ++ c.group ++
  "\nRestart=" ++ c.restart_policy ++
  "\nRestartSec=" ++ c.restart_sec ++
  "\nEnvironment=\"PATH=" ++ c.venv_path ++
  "/bin:$PATH\"\nEnvironment=\"PYTHONUNBUFFERED=1\"\n" ++
  envBlock c.additional_env_vars ++
  "\n\n[Install]\nWantedBy=multi-user.target"

/-- Jinja rendering of `GUNICORN_TEMPLATE` (main.py:46-65), as for
`renderStandardPython`. -/
def renderGunicorn (c : Config) : String :=
  "\n[Unit]\nDescription=" ++ c.description ++
  "\nAfter=network.target\n\n[Service]\nExecStart=/bin/bash -c \"source " ++
  c.venv_path ++ "/bin/activate && gunicorn --bind " ++
  c.bind_address.getD "" ++ " " ++ c.app_module.getD "" ++
  "\"\nWorkingDirectory=" ++ c.working_directory ++
  "\nUser=" ++ c.user ++
  "\nGroup=" ++ c.group ++
  "\nRestart=" ++ c.restart_policy ++
  "\nRestartSec=" ++ c.restart_sec ++
  "\nEnvironment=\"PATH=" ++ c.venv_path ++
  "/bin:$PATH\"\nEnvironment=\"PYTHONUNBUFFERED=1\"\n" ++
  envBlock c.additional_env_vars ++
  "\n\n[Install]\nWantedBy=multi-user.target"

/-- Rendering by template identifier: defined exactly on the registry's two
entries (`some` iff the identifier is a key of `TEMPLATES`). -/
def renderTemplate (template_name : String) (c : Config) : Option String :=
  if template_name = "standard_python" then some (renderStandardPython c)
  else if template_name = "gunicorn" then some (renderGunicorn c)
  else none

/-- `create_service_file` (main.py:100-117): an identifier outside the
registry fails with `Unknown template: <id>` before touching the filesystem;
otherwise the rendered unit text is written to
`<output-dir>/<service-name>.service`. -/
def create_service_file (service_name template_name : String) (context : Config)
    (output_dir : String) (fs : FS) : (Bool × String) × FS :=
  match renderTemplate template_name context with
  | none => ((false, "Unknown template: " ++ template_name), fs)
  | some content =>
    let service_path := output_dir ++ "/" ++ service_name ++ ".service"
    ((true, service_path), fsWrite service_path (.text content) fs)

/-- `preview_service_file` (main.py:303-314): prints `Unknown template: <id>`
and returns without rendering for an unregistered identifier, otherwise
prints the rendered unit text (the printed outcome is the value here). -/
def preview_service_file (template_name : String) (context : Config) :
    Except String String :=
  match renderTemplate template_name context with
  | none => .error ("Unknown template: " ++ template_name)
  | some content => .ok content

/-- C8: for any identifier outside the registry's two fixed entries, the
renderer fails with an "unknown template" message naming the identifier and
writes no unit file, and the preview fails with the same message. -/
theorem pysysd_C8 (tn : String) (c : Config) (nm odir : String) (fs : FS)
    (h1 : tn ≠ "standard_python") (h2 : tn ≠ "gunicorn") :
    (TEMPLATES.lookup tn = none) ∧
    create_service_file nm tn c odir fs = ((false, "Unknown template: " ++ tn), fs) ∧
    preview_service_file tn c = .error ("Unknown template: " ++ tn) := by
  have e1 : (tn == "standard_python") = false := beq_eq_false_iff_ne.mpr h1
  have e2 : (tn == "gunicorn") = false := beq_eq_false_iff_ne.mpr h2
  refine ⟨?_, ?_, ?_⟩ <;>
    simp [TEMPLATES, List.lookup, create_service_file, preview_service_file,
      renderTemplate, h1, h2, e1, e2]

/-- A config used as rendering context in witnesses. -/
def cfgW : Config :=
  { name := "svc", description := "My service", template := "standard_python",
    working_directory := "/srv/app", venv_path := "/srv/venv",
    user := "alice", group := "alice", restart_policy := "always",
    restart_sec := "3", additional_env_vars := ["FOO=1", "BAR=two words"],
    script_path := some "/srv/app/run.py", script_args := some "" }

/-- C8 witness: the unregistered identifier `nginx` fails both the renderer
and the preview and leaves the (empty) filesystem untouched. -/
theorem pysysd_C8_witness :
    TEMPLATES.lookup "nginx" = none ∧
    create_service_file "svc" "nginx" cfgW "/out" [] =
      ((false, "Unknown template: " ++ "nginx"), []) ∧
    preview_service_file "nginx" cfgW = .error ("Unknown template: " ++ "nginx") :=
  pysysd_C8 "nginx" cfgW "svc" "/out" [] (by decide) (by decide)

/-- Modelled from the Python standard library: the `getpass` module defines
`getuser()` but no attribute named `user`, so evaluating `getpass.user`
raises `AttributeError`. -/
def getpassUserAttr : Except String String :=
  .error "AttributeError: module 'getpass' has no attribute 'user'"

/-- The flag-mode group default (main.py:426):
`args.group or getpass.user or getpass.getuser()` — a truthy `--group` wins,
otherwise `getpass.user` is evaluated (and raises); the final
`getpass.getuser()` fallback is unreachable on that branch. -/
def flagGroup (argGroup : Option String) (currentUser : String) :
    Except String String :=
  if truthyOpt argGroup then .ok (argGroup.getD "")
  else
    match getpassUserAttr with
    | .error e => .error e
    | .ok u => .ok (if u = "" then currentUser else u)

/-- The `create` command's flag arguments (argparse defaults included:
`--restart` defaults to `always`, `--restart-sec` to `3`).  Flag mode is
taken only when `--name`, `--template` and `--venv-path` are all truthy, so
those are plain strings here. -/
structure FlagArgs where
  name : String
  template : String
  description : Option String := none
  working_dir : Option String := none
  venv_path : String
  script_path : Option String := none
  script_args : Option String := none
  bind_address : Option String := none
  app_module : Option String := none
  user : Option String := none
  group : Option String := none
  restart : String := "always"
  restart_sec : String := "3"
  env : Option String := none
  output : Option String := none
deriving DecidableEq, Repr

/-- Flag-mode construction of `service_info` (main.py:419-438): defaults
applied per field; the group default may raise (`flagGroup`), in which case
construction raises. -/
def buildFlagConfig (a : FlagArgs) (env : PyEnv) : Except String Config :=
  match flagGroup a.group env.currentUser with
  | .error e => .error e
  | .ok group =>
    .ok
      { name := a.name,
        description := pyOrStr a.description ("Python service " ++ a.name),
        template := a.template,
        working_directory :=
          match a.working_dir with
          | some wd => if wd = "" then env.cwd else pyAbspath env (pyExpanduser env wd)
          | none => env.cwd,
        venv_path := pyAbspath env (pyExpanduser env a.venv_path),
        user := pyOrStr a.user env.currentUser,
        group := group,
        restart_policy := a.restart,
        restart_sec := a.restart_sec,
        additional_env_vars := parse_env_vars (pyOrStr a.env ""),
        script_path :=
          if a.template = "standard_python" then
            some (pyAbspath env (pyExpanduser env (a.script_path.getD "")))
          else none,
        script_args :=
          if a.template = "standard_python" then some (pyOrStr a.script_args "")
          else none,
        bind_address :=
          if a.template = "gunicorn" then some (pyOrStr a.bind_address "0.0.0.0:8000")
          else none,
        app_module := if a.template = "gunicorn" then a.app_module else none }

/-- C4: in flag mode with `--group` omitted, computing the group default
evaluates the non-existent `getpass.user` and raises `AttributeError` —
flag-mode construction fails on that branch instead of falling back to the
interactive-mode default. -/
theorem pysysd_C4 (a : FlagArgs) (env : PyEnv) (hg : a.group = none) :
    buildFlagConfig a env =
      .error "AttributeError: module 'getpass' has no attribute 'user'" ∧
    flagGroup a.group env.currentUser =
      .error "AttributeError: module 'getpass' has no attribute 'user'" := by
  have : flagGroup a.group env.currentUser =
      .error "AttributeError: module 'getpass' has no attribute 'user'" := by
    simp [flagGroup, hg, truthyOpt, getpassUserAttr]
  exact ⟨by simp [buildFlagConfig, this], this⟩

/-- Flag arguments with `--group` omitted, for the C4 witness. -/
def argsNoGroup : FlagArgs :=
  { name := "svc", template := "standard_python", venv_path := "/srv/venv",
    script_path := some "/srv/app/run.py" }

/-- A concrete process environment for witnesses. -/
def envW : PyEnv := ⟨"/home/alice/proj", "alice", "/home/alice"⟩

/-- C4 witness: flag-mode construction with `--group` omitted raises at a
concrete input. -/
theorem pysysd_C4_witness :
    argsNoGroup.group = none ∧
    (buildFlagConfig argsNoGroup envW =
        .error "AttributeError: module 'getpass' has no attribute 'user'" ∧
      flagGroup argsNoGroup.group envW.currentUser =
        .error "AttributeError: module 'getpass' has no attribute 'user'") :=
  ⟨rfl, pysysd_C4 argsNoGroup envW rfl⟩

/-- `input()` over the modelled operator-input list. -/
def takeInput : List String → String × List String
  | [] => ("", [])
  | s :: rest => (s, rest)

/-- The outcome of a `create` run: the process exit code, the error/warning
messages printed, and the resulting filesystem. -/
structure CreateOutcome where
  exit : Int
  errors : List String
  fs : FS

/-- The `create` command in flag mode (main.py:394-495, flag branch):
template-required-field guards first (aborting with a field-specific message
and no writes), then `service_info` construction (which may raise, see
`flagGroup`), advisory validations with their proceed-anyway prompts, then
persisting the config and writing the unit file.  The subsequent deployment
prompt and its privileged subprocess steps are outside this filesystem
model; the run ends after unit-file creation with exit 0 (the Python create
branch falls through and returns `None`). -/
def mainCreateFlag (a : FlagArgs) (env : PyEnv) (fs : FS)
    (answers : List String) : CreateOutcome :=
  if a.template = "standard_python" ∧ truthyOpt a.script_path = false then
    ⟨1, ["Error: --script-path is required for standard_python template"], fs⟩
  else if a.template = "gunicorn" ∧ truthyOpt a.app_module = false then
    ⟨1, ["Error: --app-module is required for gunicorn template"], fs⟩
  else
    match buildFlagConfig a env with
    | .error e => ⟨1, [e], fs⟩
    | .ok cfg =>
      let v := validate_venv fs cfg.venv_path
      let step1 :=
        if v.1 then (true, answers)
        else
          let (ans, rest) := takeInput answers
          (pyLower (pyStrip ans) == "y", rest)
      if !step1.1 then ⟨1, ["Warning: " ++ v.2], fs⟩
      else
        let s :=
          if cfg.template = "standard_python" then
            validate_python_script fs (cfg.script_path.getD "")
          else (true, "")
        let step2 :=
          if s.1 then (true, step1.2)
          else
            let (ans, rest) := takeInput step1.2
            (pyLower (pyStrip ans) == "y", rest)
        if !step2.1 then ⟨1, ["Warning: " ++ s.2], fs⟩
        else
          let saved := save_service_config cfg env.home fs none
          let output_dir := pyOrStr a.output (env.home ++ "/systemd-services")
          let created := create_service_file cfg.name cfg.template cfg output_dir saved.1
          if !created.1.1 then
            ⟨1, ["Error creating service file: " ++ created.1.2], created.2⟩
          else ⟨0, [], created.2⟩

/-- C6: in flag mode, a `standard_python` template without `--script-path`,
or a `gunicorn` template without `--app-module`, aborts immediately with the
field-specific error message and exit code 1, leaving the filesystem
untouched (no config file, no unit file). -/
theorem pysysd_C6 (a : FlagArgs) (env : PyEnv) (fs : FS) (answers : List String) :
    (a.template = "standard_python" → truthyOpt a.script_path = false →
      mainCreateFlag a env fs answers =
        ⟨1, ["Error: --script-path is required for standard_python template"], fs⟩) ∧
    (a.template = "gunicorn" → truthyOpt a.app_module = false →
      mainCreateFlag a env fs answers =
        ⟨1, ["Error: --app-module is required for gunicorn template"], fs⟩) := by
  constructor <;> intro h1 h2 <;> simp [mainCreateFlag, h1, h2]

/-- Flag arguments missing `--script-path`, for the C6 witness. -/
def argsNoScript : FlagArgs :=
  { name := "svc", template := "standard_python", venv_path := "/srv/venv" }

/-- Flag arguments missing `--app-module`, for the C6 witness. -/
def argsNoModule : FlagArgs :=
  { name := "web", template := "gunicorn", venv_path := "/srv/venv" }

/-- C6 witness: both guard branches at concrete inputs — the error is
reported, exit code is 1, and the filesystem (here empty) is unchanged. -/
theorem pysysd_C6_witness :
    mainCreateFlag argsNoScript envW [] [] =
      ⟨1, ["Error: --script-path is required for standard_python template"], []⟩ ∧
    mainCreateFlag argsNoModule envW [] [] =
      ⟨1, ["Error: --app-module is required for gunicorn template"], []⟩ :=
  ⟨(pysysd_C6 argsNoScript envW [] []).1 rfl rfl,
   (pysysd_C6 argsNoModule envW [] []).2 rfl rfl⟩

/-- Template selection (main.py:204-209): a non-empty all-digit choice `n`
with `0 <= n-1 < len(TEMPLATES)` picks index `n-1`; anything else silently
falls back to index 0 (the first registry entry). -/
def templateChoiceIdx (choice : String) : Nat :=
  if pyIsDigit choice then
    let n : Int := pyStrToNat choice
    if 0 ≤ n - 1 ∧ n - 1 < 2 then (n - 1).toNat else 0
  else 0

/-- The interactive restart-policy menu (main.py:248), indexed from 0. -/
def restartOptions : List String :=
  ["no", "always", "on-success", "on-failure", "on-abnormal", "on-abort",
   "on-watchdog"]

/-- Restart-policy selection (main.py:253-257): a non-empty all-digit choice
`n` with `0 <= n < len(restart_options)` picks index `n`; anything else
silently falls back to index 1 (`always`). -/
def restartChoiceIdx (choice : String) : Nat :=
  if pyIsDigit choice then
    if pyStrToNat choice < 7 then pyStrToNat choice else 1
  else 1

/-- `gather_service_info` (main.py:189-278): the interactive wizard, prompts
in source order, each answer stripped; blank answers take the documented
defaults; template and restart-policy menus fall back as in
`templateChoiceIdx`/`restartChoiceIdx`; the final confirmation answering `n`
exits without a config (`none`).  No validation is applied to any answer —
in particular the service name is used exactly as typed. -/
def gather_service_info (inputs : List String) (env : PyEnv) : Option Config :=
  let (i0, r0) := takeInput inputs
  let name := (pyStrip i0)
  let (i1, r1) := takeInput r0
  let description := (pyStrip i1)
  let (i2, r2) := takeInput r1
  let template_idx := templateChoiceIdx (pyStrip i2)
  let template_id := templateKeys.getD template_idx ""
  let (i3, r3) := takeInput r2
  let working_directory := if (pyStrip i3) = "" then env.cwd else (pyStrip i3)
  let (i4, r4) := takeInput r3
  let venv_path := pyAbspath env (pyExpanduser env (pyStrip i4))
  let specific :=
    if template_id = "standard_python" then
      let (i5, r5) := takeInput r4
      let (i6, r6) := takeInput r5
      ((some (pyAbspath env (pyExpanduser env (pyStrip i5))), some (pyStrip i6),
        (none : Option String), (none : Option String)), r6)
    else if template_id = "gunicorn" then
      let (i5, r5) := takeInput r4
      let bind := if (pyStrip i5) = "" then "0.0.0.0:8000" else (pyStrip i5)
      let (i6, r6) := takeInput r5
      (((none : Option String), (none : Option String), some bind, some (pyStrip i6)), r6)
    else (((none : Option String), (none : Option String),
      (none : Option String), (none : Option String)), r4)
  let (i7, r7) := takeInput specific.2
  let user := if (pyStrip i7) = "" then env.currentUser else (pyStrip i7)
  let (i8, r8) := takeInput r7
  let group := if (pyStrip i8) = "" then env.currentUser else (pyStrip i8)
  let (i9, r9) := takeInput r8
  let restart_policy := restartOptions.getD (restartChoiceIdx (pyStrip i9)) ""
  let (i10, r10) := takeInput r9
  let restart_sec := if (pyStrip i10) = "" then "3" else (pyStrip i10)
  let (i11, r11) := takeInput r10
  let additional_env_vars := parse_env_vars (pyStrip i11)
  let (i12, _) := takeInput r11
  if pyLower (pyStrip i12) = "n" then none
  else
    some
      { name, description, template := template_id, working_directory,
        venv_path, user, group, restart_policy, restart_sec,
        additional_env_vars,
        script_path := specific.1.1, script_args := specific.1.2.1,
        bind_address := specific.1.2.2.1, app_module := specific.1.2.2.2 }

/-- An invalid menu choice makes template selection fall back to index 0. -/
theorem templateChoiceIdx_invalid (s : String)
    (h : ¬(pyIsDigit s = true ∧ 1 ≤ pyStrToNat s ∧ pyStrToNat s ≤ 2)) :
    templateChoiceIdx s = 0 := by
  unfold templateChoiceIdx
  by_cases hd : pyIsDigit s = true
  · rw [if_pos hd]
    have hrange : ¬(1 ≤ pyStrToNat s ∧ pyStrToNat s ≤ 2) := fun hr => h ⟨hd, hr⟩
    have : ¬(0 ≤ (pyStrToNat s : Int) - 1 ∧ (pyStrToNat s : Int) - 1 < 2) := by
      omega
    simp only [this, if_neg, not_false_eq_true]
  · rw [if_neg hd]

/-- An invalid menu choice makes restart-policy selection fall back to
index 1. -/
theorem restartChoiceIdx_invalid (s : String)
    (h : ¬(pyIsDigit s = true ∧ pyStrToNat s < 7)) :
    restartChoiceIdx s = 1 := by
  unfold restartChoiceIdx
  by_cases hd : pyIsDigit s = true
  · rw [if_pos hd]
    have : ¬ pyStrToNat s < 7 := fun hr => h ⟨hd, hr⟩
    rw [if_neg this]
  · rw [if_neg hd]

/-- C10: in the interactive wizard, any template-selection answer that is
empty, non-numeric, or an out-of-range number silently selects the first
registry entry (`standard_python`), and likewise any invalid restart-policy
answer falls back to `always` — the wizard completes instead of
re-prompting or failing. -/
theorem pysysd_C10 (tc rc : String)
    (ht : ¬(pyIsDigit (pyStrip tc) = true ∧ 1 ≤ pyStrToNat (pyStrip tc) ∧ pyStrToNat (pyStrip tc) ≤ 2))
    (hr : ¬(pyIsDigit (pyStrip rc) = true ∧ pyStrToNat (pyStrip rc) < 7)) :
    (gather_service_info
        ["svc", "demo", tc, "/srv/app", "/srv/venv", "/srv/app/run.py", "",
         "alice", "alice", rc, "3", "", "y"] envW).map
      (fun c => (c.template, c.restart_policy)) =
      some ("standard_python", "always") := by
  have h1 : templateChoiceIdx (pyStrip tc) = 0 := templateChoiceIdx_invalid _ ht
  have h2 : restartChoiceIdx (pyStrip rc) = 1 := restartChoiceIdx_invalid _ hr
  simp [gather_service_info, takeInput, h1, h2, templateKeys, restartOptions]
  exact ⟨_, ⟨by decide, rfl⟩, rfl, rfl⟩

/-- Interactive answers whose service name is empty: the wizard accepts them
unchanged (`input("Service name: ").strip()` is never validated). -/
def cexInputs : List String :=
  ["", "demo", "1", "/srv/app", "/srv/venv", "/srv/app/run.py", "", "alice",
   "alice", "1", "3", "", "y"]

/-- The config the wizard builds from `cexInputs`. -/
def cexConfig : Config :=
  { name := "", description := "demo", template := "standard_python",
    working_directory := "/srv/app", venv_path := "/srv/venv",
    user := "alice", group := "alice", restart_policy := "always",
    restart_sec := "3", additional_env_vars := [],
    script_path := some "/srv/app/run.py", script_args := some "" }

/-- C9 counterexample: the interactive construction mode accepts an empty
service name and the tool persists the resulting config — the file is
written at `<config-dir>/.json` with an empty filename stem, so the claimed
invariant (`name` non-empty and filesystem-safe for every constructed and
persisted record) fails on the code. -/
theorem pysysd_C9_counterexample :
    gather_service_info cexInputs envW = some cexConfig ∧
    cexConfig.name = "" ∧
    (save_service_config cexConfig envW.home [] none).2 =
      configDir envW.home ++ "/.json" ∧
    fsGet (save_service_config cexConfig envW.home [] none).1
        (configDir envW.home ++ "/.json") =
      some (.json (encodeConfig cexConfig)) :=
  ⟨by decide, rfl, rfl, rfl⟩

/-- C9 as amended: flag mode alone guarantees the invariant's non-emptiness
half — it is only dispatched with a truthy `--name`, which the constructed
record and its persisted filename stem preserve; interactive mode enforces
nothing (see the counterexample). -/
theorem pysysd_C9_amended (a : FlagArgs) (env : PyEnv) (c : Config)
    (hn : a.name ≠ "") (hb : buildFlagConfig a env = .ok c) :
    c.name = a.name ∧ c.name ≠ "" ∧
    ∀ fs : FS, (save_service_config c env.home fs none).2 =
      configDir env.home ++ "/" ++ a.name ++ ".json" := by
  unfold buildFlagConfig at hb
  cases hfg : flagGroup a.group env.currentUser with
  | error e => rw [hfg] at hb; cases hb
  | ok g =>
    rw [hfg] at hb
    injection hb with hb
    subst hb
    exact ⟨rfl, hn, fun fs => rfl⟩

/-- Complete flag arguments (with `--group` supplied), for the C9 witness. -/
def argsFull : FlagArgs :=
  { name := "svc", template := "standard_python", venv_path := "/srv/venv",
    script_path := some "/srv/app/run.py", group := some "alice" }

/-- The config flag mode builds from `argsFull` in `envW`. -/
def cfgFlag : Config :=
  { name := "svc", description := "Python service svc",
    template := "standard_python", working_directory := "/home/alice/proj",
    venv_path := "/srv/venv", user := "alice", group := "alice",
    restart_policy := "always", restart_sec := "3",
    additional_env_vars := [], script_path := some "/srv/app/run.py",
    script_args := some "" }

/-- C9 amended witness: a concrete flag-mode construction whose name is
preserved non-empty into the record and the persisted path. -/
theorem pysysd_C9_amended_witness :
    (argsFull.name ≠ "" ∧ buildFlagConfig argsFull envW = .ok cfgFlag) ∧
    (cfgFlag.name = argsFull.name ∧ cfgFlag.name ≠ "" ∧
      ∀ fs : FS, (save_service_config cfgFlag envW.home fs none).2 =
        configDir envW.home ++ "/" ++ argsFull.name ++ ".json") :=
  ⟨⟨by decide, rfl⟩, pysysd_C9_amended argsFull envW cfgFlag (by decide) rfl⟩

/-- C10 witness: the non-numeric template answer `"x"` and the out-of-range
restart answer `"99"` both fall back. -/
theorem pysysd_C10_witness :
    (gather_service_info
        ["svc", "demo", "x", "/srv/app", "/srv/venv", "/srv/app/run.py", "",
         "alice", "alice", "99", "3", "", "y"] envW).map
      (fun c => (c.template, c.restart_policy)) =
      some ("standard_python", "always") :=
  pysysd_C10 "x" "99" (by decide) (by decide)

/-- Split a character sequence at newlines (the line structure of the
rendered unit text). -/
def splitLines : List Char → List (List Char)
  | [] => [[]]
  | c :: cs =>
    if c = '\n' then [] :: splitLines cs
    else
      match splitLines cs with
      | [] => [[c]]
      | l :: ls => (c :: l) :: ls

/-- Join lines with newlines (inverse of `splitLines` on newline-free
lines). -/
def lineJoin : List (List Char) → List Char
  | [] => []
  | [l] => l
  | l :: ls => l ++ '\n' :: lineJoin ls

/-- `lineJoin` on a cons with a non-empty tail. -/
theorem lineJoin_cons_ne (l : List Char) (ls : List (List Char)) (h : ls ≠ []) :
    lineJoin (l :: ls) = l ++ '\n' :: lineJoin ls := by
  cases ls with
  | nil => exact absurd rfl h
  | cons a as => rfl

/-- A newline-free sequence is a single line. -/
theorem splitLines_no_nl (xs : List Char) (h : '\n' ∉ xs) :
    splitLines xs = [xs] := by
  induction xs with
  | nil => rfl
  | cons c cs ih =>
    have hc : ¬(c = '\n') := fun e => h (e ▸ List.mem_cons_self c cs)
    have hcs : '\n' ∉ cs := fun m => h (List.mem_cons_of_mem c m)
    simp [splitLines, hc, ih hcs]

/-- Splitting at an explicit newline after a newline-free chunk. -/
theorem splitLines_append_nl (xs ys : List Char) (h : '\n' ∉ xs) :
    splitLines (xs ++ '\n' :: ys) = xs :: splitLines ys := by
  induction xs with
  | nil => simp [splitLines]
  | cons c cs ih =>
    have hc : ¬(c = '\n') := fun e => h (e ▸ List.mem_cons_self c cs)
    have hcs : '\n' ∉ cs := fun m => h (List.mem_cons_of_mem c m)
    simp [splitLines, hc, ih hcs]

/-- `splitLines` inverts `lineJoin` on newline-free lines. -/
theorem splitLines_lineJoin (ls : List (List Char)) (hne : ls ≠ [])
    (h : ∀ l ∈ ls, '\n' ∉ l) : splitLines (lineJoin ls) = ls := by
  induction ls with
  | nil => exact absurd rfl hne
  | cons l rest ih =>
    cases rest with
    | nil => exact splitLines_no_nl l (h l (List.mem_cons_self l []))
    | cons l2 rest2 =>
      rw [lineJoin_cons_ne l _ (by simp),
        splitLines_append_nl _ _ (h l (List.mem_cons_self l _)),
        ih (by simp) (fun x hx => h x (List.mem_cons_of_mem _ hx))]

/-- A line of the form `Environment="..."`. -/
def isEnvLine : List Char → Bool
  | 'E' :: 'n' :: 'v' :: 'i' :: 'r' :: 'o' :: 'n' :: 'm' :: 'e' :: 'n' :: 't' :: '=' :: '"' :: _ => true
  | _ => false

/-- The characters of the `Environment="<entry>"` line rendered for one
`additional_env_vars` entry. -/
def envLineChars (v : String) : List Char :=
  "Environment=\"".data ++ v.data ++ "\"".data

/-- The rendered standard-python unit text, line by line. -/
def stdLines (c : Config) : List (List Char) :=
  [[], "[Unit]".data, "Description=".data ++ c.description.data,
   "After=network.target".data, [], "[Service]".data,
   "ExecStart=/bin/bash -c \"source ".data ++ c.venv_path.data ++
     "/bin/activate && python3 ".data ++ (c.script_path.getD "").data ++
     " ".data ++ (c.script_args.getD "").data ++ "\"".data,
   "WorkingDirectory=".data ++ c.working_directory.data,
   "User=".data ++ c.user.data,
   "Group=".data ++ c.group.data,
   "Restart=".data ++ c.restart_policy.data,
   "RestartSec=".data ++ c.restart_sec.data,
   "Environment=\"PATH=".data ++ c.venv_path.data ++ "/bin:$PATH\"".data,
   "Environment=\"PYTHONUNBUFFERED=1\"".data,
   []]
  ++ c.additional_env_vars.map envLineChars
  ++ [[], "[Install]".data, "WantedBy=multi-user.target".data]

/-- The rendered text from the env-var block to the end, as joined lines:
one `Environment="<entry>"` line per entry between the blank line after the
fixed `Environment=` pair and the blank line before `[Install]`. -/
theorem envBlock_tail_join (vs : List String) :
    (envBlock vs).data ++ '\n' :: '\n' ::
        ("[Install]".data ++ '\n' :: "WantedBy=multi-user.target".data) =
      lineJoin (([] : List Char) ::
        (vs.map envLineChars ++
          [([] : List Char), "[Install]".data, "WantedBy=multi-user.target".data])) := by
  induction vs with
  | nil => rfl
  | cons v rest ih =>
    have hB : rest.map envLineChars ++
        [([] : List Char), "[Install]".data, "WantedBy=multi-user.target".data] ≠ [] := by
      simp
    rw [lineJoin_cons_ne _ _ hB, List.nil_append] at ih
    rw [lineJoin_cons_ne _ _ (by simp), List.nil_append, List.map_cons]
    have hsplit : (envLineChars v :: rest.map envLineChars) ++
        [([] : List Char), "[Install]".data, "WantedBy=multi-user.target".data] =
      envLineChars v :: (rest.map envLineChars ++
        [([] : List Char), "[Install]".data, "WantedBy=multi-user.target".data]) := rfl
    rw [hsplit, lineJoin_cons_ne _ _ hB, ← ih]
    simp only [envBlock, strDataAppend, List.append_assoc, envLineChars]
    rfl

/-- The rendered standard-python unit text is exactly its line list joined
with newlines. -/
theorem renderStandardPython_lines (c : Config) :
    (renderStandardPython c).data = lineJoin (stdLines c) := by
  have hsh : stdLines c =
      ([] : List Char) :: "[Unit]".data ::
      ("Description=".data ++ c.description.data) ::
      "After=network.target".data :: ([] : List Char) :: "[Service]".data ::
      ("ExecStart=/bin/bash -c \"source ".data ++ c.venv_path.data ++
        "/bin/activate && python3 ".data ++ (c.script_path.getD "").data ++
        " ".data ++ (c.script_args.getD "").data ++ "\"".data) ::
      ("WorkingDirectory=".data ++ c.working_directory.data) ::
      ("User=".data ++ c.user.data) ::
      ("Group=".data ++ c.group.data) ::
      ("Restart=".data ++ c.restart_policy.data) ::
      ("RestartSec=".data ++ c.restart_sec.data) ::
      ("Environment=\"PATH=".data ++ c.venv_path.data ++ "/bin:$PATH\"".data) ::
      "Environment=\"PYTHONUNBUFFERED=1\"".data ::
      (([] : List Char) ::
        (c.additional_env_vars.map envLineChars ++
          [([] : List Char), "[Install]".data, "WantedBy=multi-user.target".data])) := rfl
  rw [hsh]
  simp only [lineJoin]
  rw [← envBlock_tail_join]
  simp only [renderStandardPython, strDataAppend, List.append_assoc]
  rfl


/-- Each rendered env-var line is an `Environment="` line. -/
theorem isEnvLine_envLineChars (v : String) : isEnvLine (envLineChars v) = true := rfl

/-- A blank line is not an `Environment="` line. -/
theorem isEnvLine_nil : isEnvLine [] = false := rfl

/-- Section-header lines are not `Environment="` lines. -/
theorem isEnvLine_lbrack (x : List Char) : isEnvLine ('[' :: x) = false := rfl

/-- `Description=` lines are not `Environment="` lines. -/
theorem isEnvLine_hD (x : List Char) : isEnvLine ('D' :: x) = false := rfl

/-- `After=` lines are not `Environment="` lines. -/
theorem isEnvLine_hA (x : List Char) : isEnvLine ('A' :: x) = false := rfl

/-- `WorkingDirectory=`/`WantedBy=` lines are not `Environment="` lines. -/
theorem isEnvLine_hW (x : List Char) : isEnvLine ('W' :: x) = false := rfl

/-- `User=` lines are not `Environment="` lines. -/
theorem isEnvLine_hU (x : List Char) : isEnvLine ('U' :: x) = false := rfl

/-- `Group=` lines are not `Environment="` lines. -/
theorem isEnvLine_hG (x : List Char) : isEnvLine ('G' :: x) = false := rfl

/-- `Restart=`/`RestartSec=` lines are not `Environment="` lines. -/
theorem isEnvLine_hR (x : List Char) : isEnvLine ('R' :: x) = false := rfl

/-- The `ExecStart=` line is not an `Environment="` line. -/
theorem isEnvLine_hEx (x : List Char) : isEnvLine ('E' :: 'x' :: x) = false := rfl

/-- A line opening with `Environment="` is an `Environment="` line. -/
theorem isEnvLine_hEnv (x : List Char) :
    isEnvLine ('E' :: 'n' :: 'v' :: 'i' :: 'r' :: 'o' :: 'n' :: 'm' :: 'e' :: 'n' :: 't' :: '=' :: '"' :: x) = true := rfl

/-- Every rendered env-var line survives the `Environment="` filter. -/
theorem filter_env_map (vs : List String) :
    (vs.map envLineChars).filter isEnvLine = vs.map envLineChars := by
  induction vs with
  | nil => rfl
  | cons v rest ih => simp [List.filter, isEnvLine_envLineChars, ih]

/-- The `Environment="` lines of the rendered unit are exactly the fixed
PATH and PYTHONUNBUFFERED lines followed by one line per env-var entry. -/
theorem filter_stdLines (c : Config) :
    (stdLines c).filter isEnvLine =
      ("Environment=\"PATH=".data ++ c.venv_path.data ++ "/bin:$PATH\"".data) ::
      "Environment=\"PYTHONUNBUFFERED=1\"".data ::
      c.additional_env_vars.map envLineChars := by
  simp [stdLines, List.filter_append, List.filter_cons, isEnvLine_nil,
    isEnvLine_lbrack, isEnvLine_hD, isEnvLine_hA, isEnvLine_hW, isEnvLine_hU,
    isEnvLine_hG, isEnvLine_hR, isEnvLine_hEx, isEnvLine_hEnv, filter_env_map]

/-- The line-safety hypothesis of the rendering claim: no rendered field and
no env-var entry contains a newline (the `Environment="KEY=VALUE"` form of
the claim presumes single-line entries). -/
abbrev configLineSafe (c : Config) : Prop :=
  '\n' ∉ c.description.data ∧ '\n' ∉ c.venv_path.data ∧
  '\n' ∉ (c.script_path.getD "").data ∧ '\n' ∉ (c.script_args.getD "").data ∧
  '\n' ∉ c.working_directory.data ∧ '\n' ∉ c.user.data ∧
  '\n' ∉ c.group.data ∧ '\n' ∉ c.restart_policy.data ∧
  '\n' ∉ c.restart_sec.data ∧ ∀ v ∈ c.additional_env_vars, '\n' ∉ v.data

/-- Under the line-safety hypothesis no rendered line contains a newline. -/
theorem stdLines_no_nl (c : Config) (h : configLineSafe c) :
    ∀ l ∈ stdLines c, '\n' ∉ l := by
  obtain ⟨h1, h2, h3, h4, h5, h6, h7, h8, h9, h10⟩ := h
  intro l hl
  simp only [stdLines, List.mem_append, List.mem_cons, List.mem_map,
    List.not_mem_nil, or_false, false_or] at hl
  rcases hl with ((rfl | rfl | rfl | rfl | rfl | rfl | rfl | rfl | rfl | rfl |
    rfl | rfl | rfl | rfl | rfl) | ⟨v, hv, rfl⟩) | (rfl | rfl | rfl)
  all_goals first
    | decide
    | (simp only [envLineChars, List.mem_append, List.append_assoc, not_or]
       first
        | exact ⟨by decide, h1⟩
        | exact ⟨by decide, h2, by decide, h3, by decide, h4, by decide⟩
        | exact ⟨by decide, h2, by decide⟩
        | exact ⟨by decide, h5⟩
        | exact ⟨by decide, h6⟩
        | exact ⟨by decide, h7⟩
        | exact ⟨by decide, h8⟩
        | exact ⟨by decide, h9⟩
        | exact ⟨by decide, h10 v hv, by decide⟩)

/-- C1: for every line-safe config, the `Environment="..."` lines of the
rendered standard-python unit are exactly the two fixed PATH and
PYTHONUNBUFFERED lines followed by exactly one `Environment="KEY=VALUE"`
line per `additional_env_vars` entry, each entry preserved verbatim; with
an empty list no line attributable to the field appears. -/
theorem pysysd_C1 (c : Config) (h : configLineSafe c) :
    (splitLines (renderStandardPython c).data).filter isEnvLine =
      ("Environment=\"PATH=".data ++ c.venv_path.data ++ "/bin:$PATH\"".data) ::
      "Environment=\"PYTHONUNBUFFERED=1\"".data ::
      c.additional_env_vars.map envLineChars := by
  rw [renderStandardPython_lines,
    splitLines_lineJoin _ (by simp [stdLines]) (stdLines_no_nl c h),
    filter_stdLines]

/-- C1 witness: the concrete config `cfgW` (two env entries, the second with
an internal space) rendered and filtered. -/
theorem pysysd_C1_witness :
    configLineSafe cfgW ∧
    (splitLines (renderStandardPython cfgW).data).filter isEnvLine =
      ("Environment=\"PATH=".data ++ cfgW.venv_path.data ++ "/bin:$PATH\"".data) ::
      "Environment=\"PYTHONUNBUFFERED=1\"".data ::
      cfgW.additional_env_vars.map envLineChars :=
  ⟨by decide, pysysd_C1 cfgW (by decide)⟩

end PySysdDeploy
